import Mathlib

/-!
# Biolink: the generated bridge code of react-native-biolink

A shallow embedding of the three nitrogen-generated files

* `nitrogen/generated/shared/c++/BiometryType.hpp`
* `nitrogen/generated/android/c++/JSensorAvailability.hpp`
* `nitrogen/generated/android/BiolinkCoreOnLoad.cpp`

C++ exceptions are modelled by `Except Exception`, `std::string` by `String`
(its bytes being the UTF-8 encoding), and the enum `BiometryType` by its
underlying `int`, so that values outside the four enumerators exist as they do
in C++.
-/

namespace Biolink

/-! ## Exceptions and JS values -/

/-- The exceptions the embedded code can raise. -/
inductive Exception where
  /-- A `std::invalid_argument` built from the given `std::string`. The string
  is kept whole; `what()` hands it out as a C string, see `Exception.what`. -/
  | invalid_argument (message : String)
  /-- A `jsi::JSError` raised by the JS runtime when a value has the wrong type. -/
  | jsError
  deriving DecidableEq, Repr

/-- The text `what()` returns for a `std::invalid_argument`: a C string, so the
message up to its first NUL character, if it has one. -/
def Exception.what : Exception → Option String
  | .invalid_argument message => some (message.takeWhile (fun c => c != Char.ofNat 0))
  | .jsError => none

/-- A `jsi::Value`. Only the kind and, for strings, the text are kept: the
converters below read nothing else. -/
inductive JSValue where
  | undefined
  | null
  | bool (b : Bool)
  | number
  | symbol
  | bigint
  | string (s : String)
  | object
  deriving DecidableEq, Repr

/-- The method `jsi::Value::isString`. -/
def JSValue.isString : JSValue → Bool
  | .string _ => true
  | _ => false

/-! ## BiometryType.hpp -/

/-- The `enum class BiometryType`, carried as its underlying `int`. -/
structure BiometryType where
  underlying : Int
  deriving DecidableEq, Repr

namespace BiometryType

/-- Enumerator `TOUCHID = 0`. -/
def TOUCHID : BiometryType := ⟨0⟩
/-- Enumerator `FACEID = 1`. -/
def FACEID : BiometryType := ⟨1⟩
/-- Enumerator `BIOMETRICS = 2`. -/
def BIOMETRICS : BiometryType := ⟨2⟩
/-- Enumerator `NONE = 3`. -/
def NONE : BiometryType := ⟨3⟩

end BiometryType

/-- The UTF-8 bytes of one Unicode scalar value. -/
def utf8EncodeChar (c : Char) : List Nat :=
  let v := c.toNat
  if v ≤ 0x7f then [v]
  else if v ≤ 0x7ff then [0xc0 ||| (v >>> 6), 0x80 ||| (v &&& 0x3f)]
  else if v ≤ 0xffff then
    [0xe0 ||| (v >>> 12), 0x80 ||| ((v >>> 6) &&& 0x3f), 0x80 ||| (v &&& 0x3f)]
  else
    [0xf0 ||| (v >>> 18), 0x80 ||| ((v >>> 12) &&& 0x3f), 0x80 ||| ((v >>> 6) &&& 0x3f),
      0x80 ||| (v &&& 0x3f)]

/-- The bytes `str.c_str()[0 .. str.size())` of a `std::string`. -/
def c_str (str : String) : List Nat :=
  str.toList.flatMap utf8EncodeChar

/-- The conversion `static_cast<uint64_t>(str[i])` of one `char`. Where `char`
is signed, a byte of 128 or more is a negative `char` and is sign-extended. -/
def charToUInt64 (charIsSigned : Bool) (byte : Nat) : Nat :=
  if charIsSigned && decide (128 ≤ byte) then 2 ^ 64 - 256 + byte else byte

/-- Modelled from the spec: `hashString` of `NitroModules/NitroHash.hpp`, which
the generated header includes and which is not among the sources; it is the
64-bit FNV-1a hash: starting from the offset basis 14695981039346656037, each
byte is xor-ed into the hash, which is then multiplied by the prime
1099511628211 in `uint64_t` arithmetic. -/
def hashString (charIsSigned : Bool) (str : List Nat) : Nat :=
  str.foldl
    (fun hash c => ((hash ^^^ charToUInt64 charIsSigned c) * 1099511628211) % 2 ^ 64)
    14695981039346656037

/-- The values of the four `case` labels `hashString("TouchID")`,
`hashString("FaceID")`, `hashString("Biometrics")` and `hashString("None")`. -/
def tokenHashes (charIsSigned : Bool) : List Nat :=
  ["TouchID", "FaceID", "Biometrics", "None"].map (fun t => hashString charIsSigned (c_str t))

namespace JSIConverter

/-- Modelled from the spec: `JSIConverter<std::string>::fromJSI` of
NitroModules, which is not among the sources: the UTF-8 text of a JS string;
any other value makes the runtime raise. -/
def string_fromJSI : JSValue → Except Exception String
  | .string s => .ok s
  | _ => .error .jsError

/-- Modelled from the spec: `JSIConverter<std::string>::toJSI` of NitroModules,
which is not among the sources: a JS string with the given text. -/
def string_toJSI (s : String) : JSValue := .string s

/-- The function `JSIConverter<BiometryType>::fromJSI`. -/
def fromJSI (charIsSigned : Bool) (arg : JSValue) : Except Exception BiometryType := do
  let unionValue ← string_fromJSI arg
  let h := hashString charIsSigned (c_str unionValue)
  if h = hashString charIsSigned (c_str "TouchID") then
    return BiometryType.TOUCHID
  else if h = hashString charIsSigned (c_str "FaceID") then
    return BiometryType.FACEID
  else if h = hashString charIsSigned (c_str "Biometrics") then
    return BiometryType.BIOMETRICS
  else if h = hashString charIsSigned (c_str "None") then
    return BiometryType.NONE
  else
    throw (.invalid_argument
      ("Cannot convert \"" ++ unionValue ++ "\" to enum BiometryType - invalid value!"))

/-- The function `JSIConverter<BiometryType>::toJSI`. -/
def toJSI (arg : BiometryType) : Except Exception JSValue :=
  if arg = BiometryType.TOUCHID then
    return string_toJSI "TouchID"
  else if arg = BiometryType.FACEID then
    return string_toJSI "FaceID"
  else if arg = BiometryType.BIOMETRICS then
    return string_toJSI "Biometrics"
  else if arg = BiometryType.NONE then
    return string_toJSI "None"
  else
    throw (.invalid_argument
      ("Cannot convert BiometryType to JS - invalid value: " ++ toString arg.underlying ++ "!"))

/-- The function `JSIConverter<BiometryType>::canConvert`. -/
def canConvert (charIsSigned : Bool) (value : JSValue) : Except Exception Bool := do
  if !value.isString then
    return false
  let unionValue ← string_fromJSI value
  let h := hashString charIsSigned (c_str unionValue)
  if h = hashString charIsSigned (c_str "TouchID") then
    return true
  else if h = hashString charIsSigned (c_str "FaceID") then
    return true
  else if h = hashString charIsSigned (c_str "Biometrics") then
    return true
  else if h = hashString charIsSigned (c_str "None") then
    return true
  else
    return false

end JSIConverter

/-! ## JSensorAvailability.hpp -/

/-- The C++ struct `SensorAvailability`, built as
`SensorAvailability(available, biometryType)`. -/
structure SensorAvailability where
  available : Bool
  biometryType : BiometryType
  deriving DecidableEq, Repr

/-- The JNI type `jboolean`, an unsigned 8-bit integer. -/
abbrev jboolean := Nat

/-- The constant `JNI_FALSE`. -/
def JNI_FALSE : jboolean := 0
/-- The constant `JNI_TRUE`. -/
def JNI_TRUE : jboolean := 1

/-- The conversion `static_cast<bool>` of a `jboolean`: every non-zero value is
`true`. -/
def static_cast_bool (b : jboolean) : Bool := b != 0

/-- The implicit conversion of a C++ `bool` to the `jboolean` parameter of
`newInstance`. -/
def bool_to_jboolean (b : Bool) : jboolean := if b then 1 else 0

/-- A Java `boolean` as JNI reads it out of a field. -/
def java_to_jboolean (b : Bool) : jboolean := if b then JNI_TRUE else JNI_FALSE

/-- A `jboolean` as the JVM stores it into a Java `boolean`. -/
def jboolean_to_java (b : jboolean) : Bool := b != JNI_FALSE

namespace JSensorAvailability

/-- An instance of the Kotlin data class
`com.margelo.nitro.biolink.native.SensorAvailability`, with its two fields. The
Java side of `BiometryType` is the type `J`; `JBiometryType.hpp` is not among
the sources, so its two conversions are arguments of `toCpp` and `fromCpp`. -/
structure javaobject (J : Type) where
  available : Bool
  biometryType : J

/-- The call `newInstance(available, biometryType)`: the constructor of the
data class stores its two arguments. -/
def newInstance {J : Type} (available : jboolean) (biometryType : J) : javaobject J :=
  { available := jboolean_to_java available, biometryType := biometryType }

/-- The method `JSensorAvailability::toCpp`. -/
def toCpp {J : Type} (JBiometryType_toCpp : J → BiometryType) (this : javaobject J) :
    SensorAvailability :=
  let available : jboolean := java_to_jboolean this.available
  let biometryType : J := this.biometryType
  SensorAvailability.mk (static_cast_bool available) (JBiometryType_toCpp biometryType)

/-- The method `JSensorAvailability::fromCpp`. -/
def fromCpp {J : Type} (JBiometryType_fromCpp : BiometryType → J) (value : SensorAvailability) :
    javaobject J :=
  newInstance (bool_to_jboolean value.available) (JBiometryType_fromCpp value.biometryType)

end JSensorAvailability

/-- A Java enum with four constants, a stand-in for the Java side of
`BiometryType` at which the bridge can be run: it has one constant for each
enumerator and none for any other `int`. -/
inductive JavaEnum where
  | TOUCHID
  | FACEID
  | BIOMETRICS
  | NONE
  deriving DecidableEq, Repr

/-- The enumerator of a constant of the stand-in enum. -/
def JavaEnum.toCpp : JavaEnum → BiometryType
  | .TOUCHID => BiometryType.TOUCHID
  | .FACEID => BiometryType.FACEID
  | .BIOMETRICS => BiometryType.BIOMETRICS
  | .NONE => BiometryType.NONE

/-- The constant of the stand-in enum for an enumerator; any other value is
sent to `NONE`. -/
def JavaEnum.fromCpp (value : BiometryType) : JavaEnum :=
  if value = BiometryType.TOUCHID then .TOUCHID
  else if value = BiometryType.FACEID then .FACEID
  else if value = BiometryType.BIOMETRICS then .BIOMETRICS
  else .NONE

/-! ## BiolinkCoreOnLoad.cpp -/

/-- The Java heap as far as the registered constructor touches it: the class of
every object created so far, a reference to an object being its index, and the
class descriptors looked up so far. -/
structure JVM where
  objects : List String
  classLookups : List String
  deriving DecidableEq, Repr

/-- Modelled from the spec: `DefaultConstructableObject<T>` of NitroModules,
which is not among the sources: it is built from a class descriptor, looks the
class up once when it is built, and keeps it. -/
structure DefaultConstructableObject where
  javaClass : String
  deriving DecidableEq, Repr

namespace DefaultConstructableObject

/-- Modelled from the spec: the constructor of `DefaultConstructableObject`,
which looks up the Java class of the descriptor. -/
def new (javaClassDescriptor : String) (jvm : JVM) : DefaultConstructableObject × JVM :=
  ({ javaClass := javaClassDescriptor },
   { jvm with classLookups := jvm.classLookups ++ [javaClassDescriptor] })

/-- Modelled from the spec: `DefaultConstructableObject::create`, which calls
the default constructor of the class and so yields a reference to a new Java
object. -/
def create (self : DefaultConstructableObject) (jvm : JVM) : Nat × JVM :=
  (jvm.objects.length, { jvm with objects := jvm.objects ++ [self.javaClass] })

end DefaultConstructableObject

/-- A `std::shared_ptr<HybridObject>` made by `JNISharedPtr::make_shared_from_jni`
from a global reference: it points at the Java object of that reference. -/
structure HybridObjectPtr where
  javaObject : Nat
  deriving DecidableEq, Repr

/-- What a hybrid-object constructor reads and writes: the Java heap and the
function-local `static` of the constructor lambda, empty until the first call. -/
structure ConstructorState where
  jvm : JVM
  object : Option DefaultConstructableObject
  deriving DecidableEq, Repr

/-- The type `HybridObjectConstructorFn`, a `std::function` returning a
`std::shared_ptr<HybridObject>`. -/
abbrev HybridObjectConstructorFn := ConstructorState → HybridObjectPtr × ConstructorState

/-- Modelled from the spec: the `HybridObjectRegistry` of NitroModules, which is
not among the sources, "a global constructor registry keyed by name". The
entries are kept newest first. -/
structure HybridObjectRegistry where
  entries : List (String × HybridObjectConstructorFn)

namespace HybridObjectRegistry

/-- Modelled from the spec: `registerHybridObjectConstructor`, which enters the
constructor under the name. -/
def registerHybridObjectConstructor (hybridObjectName : String)
    (constructorFn : HybridObjectConstructorFn) (r : HybridObjectRegistry) :
    HybridObjectRegistry :=
  { entries := (hybridObjectName, constructorFn) :: r.entries }

/-- The constructor registered under a name, if there is one. -/
def find (r : HybridObjectRegistry) (hybridObjectName : String) :
    Option HybridObjectConstructorFn :=
  (r.entries.find? (fun e => e.1 == hybridObjectName)).map (fun e => e.2)

end HybridObjectRegistry

/-- The process-wide state `initialize_vm` acts on: the classes whose native
methods are registered, and the hybrid-object registry. -/
structure Process where
  natives : List String
  registry : HybridObjectRegistry

/-- Modelled from the spec: `JHybridBiolinkCoreSpec::registerNatives`, which is
not among the sources: it registers the native methods of that class and does
not touch the registry. -/
def JHybridBiolinkCoreSpec.registerNatives (p : Process) : Process :=
  { p with natives := p.natives ++ ["JHybridBiolinkCoreSpec"] }

/-- Modelled from the spec: `jni::make_global` of fbjni: a global reference to
the same object. -/
def make_global (localRef : Nat) : Nat := localRef

/-- Modelled from the spec: `JNISharedPtr::make_shared_from_jni` of
NitroModules: a shared pointer that holds the global reference. -/
def make_shared_from_jni (globalRef : Nat) : HybridObjectPtr := { javaObject := globalRef }

/-- The constructor lambda that `initialize_vm` registers under "BiolinkCore". -/
def BiolinkCore_constructor : HybridObjectConstructorFn := fun s =>
  let (object, jvm) :=
    match s.object with
    | some object => (object, s.jvm)
    | none =>
      DefaultConstructableObject.new "com/margelo/nitro/biolink/native/HybridBiolinkCore" s.jvm
  let (inst, jvm) := object.create jvm
  let globalRef := make_global inst
  (make_shared_from_jni globalRef, { jvm := jvm, object := some object })

/-- The function-local `static` of the constructor lambda is written by the
lambda alone: it is either not yet built or was built by an earlier call, from
the one descriptor in the lambda. -/
def ConstructorState.staticValid (s : ConstructorState) : Prop :=
  s.object = none ∨
    s.object = some ⟨"com/margelo/nitro/biolink/native/HybridBiolinkCore"⟩

/-- The constant `JNI_VERSION_1_6`. -/
def JNI_VERSION_1_6 : Int := 0x00010006

/-- Modelled from the spec: `facebook::jni::initialize` of fbjni, which is not
among the sources: it runs the given function once and reports the JNI
version. -/
def jni_initialize_vm (init_fn : Process → Process) (p : Process) : Int × Process :=
  (JNI_VERSION_1_6, init_fn p)

/-- The function `initialize` of `BiolinkCoreOnLoad.cpp`. -/
def initialize_vm (p : Process) : Int × Process :=
  jni_initialize_vm
    (fun p =>
      let p := JHybridBiolinkCoreSpec.registerNatives p
      { p with
        registry :=
          p.registry.registerHybridObjectConstructor "BiolinkCore" BiolinkCore_constructor })
    p

/-! ## Theorems: the converter of `BiometryType` -/

theorem tokenHashes_eq (charIsSigned : Bool) :
    tokenHashes charIsSigned =
      [0x63c7ca28095c8245, 0xaf4b4dadbe7ccd51, 0x05082003d5788802, 0x669b18c6d2d9c95b] := by
  cases charIsSigned <;> decide

theorem hash_TouchID (cs : Bool) : hashString cs (c_str "TouchID") = 0x63c7ca28095c8245 := by
  cases cs <;> decide

theorem hash_FaceID (cs : Bool) : hashString cs (c_str "FaceID") = 0xaf4b4dadbe7ccd51 := by
  cases cs <;> decide

theorem hash_Biometrics (cs : Bool) :
    hashString cs (c_str "Biometrics") = 0x05082003d5788802 := by
  cases cs <;> decide

theorem hash_None (cs : Bool) : hashString cs (c_str "None") = 0x669b18c6d2d9c95b := by
  cases cs <;> decide

/-- On a string, `fromJSI` is decided by the hash of the string alone. -/
theorem fromJSI_string (cs : Bool) (s : String) :
    JSIConverter.fromJSI cs (.string s) =
      if hashString cs (c_str s) = 0x63c7ca28095c8245 then .ok BiometryType.TOUCHID
      else if hashString cs (c_str s) = 0xaf4b4dadbe7ccd51 then .ok BiometryType.FACEID
      else if hashString cs (c_str s) = 0x05082003d5788802 then .ok BiometryType.BIOMETRICS
      else if hashString cs (c_str s) = 0x669b18c6d2d9c95b then .ok BiometryType.NONE
      else .error (.invalid_argument
        ("Cannot convert \"" ++ s ++ "\" to enum BiometryType - invalid value!")) := by
  simp only [JSIConverter.fromJSI, JSIConverter.string_fromJSI, hash_TouchID, hash_FaceID,
    hash_Biometrics, hash_None]
  rfl

/-- On a string, `canConvert` is decided by the hash of the string alone. -/
theorem canConvert_string (cs : Bool) (s : String) :
    JSIConverter.canConvert cs (.string s) =
      .ok (decide (hashString cs (c_str s) ∈ tokenHashes cs)) := by
  rw [tokenHashes_eq]
  simp only [JSIConverter.canConvert, JSIConverter.string_fromJSI, hash_TouchID, hash_FaceID,
    hash_Biometrics, hash_None, JSValue.isString, bind, Except.bind, pure, Except.pure]
  split_ifs <;> simp_all

/-- C1: for each of the four enumerators TOUCHID, FACEID, BIOMETRICS and NONE,
`toJSI` does not throw, and `fromJSI` applied to the JS value it returns gives
back exactly that enumerator, whether `char` is signed or not. -/
theorem fromJSI_toJSI_roundtrip (charIsSigned : Bool) (v : BiometryType)
    (hv : v ∈ [BiometryType.TOUCHID, BiometryType.FACEID, BiometryType.BIOMETRICS,
      BiometryType.NONE]) :
    ∃ x, JSIConverter.toJSI v = .ok x ∧ JSIConverter.fromJSI charIsSigned x = .ok v := by
  simp only [List.mem_cons, List.mem_singleton, List.not_mem_nil, or_false] at hv
  rcases hv with h | h | h | h <;> subst h <;> cases charIsSigned <;> exact ⟨_, rfl, rfl⟩

theorem fromJSI_toJSI_roundtrip_witness :
    ∃ x, JSIConverter.toJSI BiometryType.FACEID = .ok x ∧
      JSIConverter.fromJSI true x = .ok BiometryType.FACEID :=
  fromJSI_toJSI_roundtrip true BiometryType.FACEID (by decide)

/-- C2, as stated, fails: the string "AWaGW<l>E^SKbH" is none of the four
tokens, yet it has the FNV-1a hash of "None", and `fromJSI` returns NONE for
it instead of throwing. -/
theorem fromJSI_accepts_hash_collision :
    "AWaGW<l>E^SKbH" ∉ ["TouchID", "FaceID", "Biometrics", "None"] ∧
      hashString true (c_str "AWaGW<l>E^SKbH") = hashString true (c_str "None") ∧
      JSIConverter.fromJSI true (.string "AWaGW<l>E^SKbH") = .ok BiometryType.NONE ∧
      JSIConverter.fromJSI false (.string "AWaGW<l>E^SKbH") = .ok BiometryType.NONE :=
  ⟨by decide, by decide, rfl, rfl⟩

/-- C2, amended: for every string whose hash is none of the hashes of the four
tokens, `fromJSI` throws a `std::invalid_argument` and returns no enum value. -/
theorem fromJSI_invalid_of_hash_not_token (charIsSigned : Bool) (s : String)
    (h : hashString charIsSigned (c_str s) ∉ tokenHashes charIsSigned) :
    ∃ message,
      JSIConverter.fromJSI charIsSigned (.string s) = .error (.invalid_argument message) := by
  rw [tokenHashes_eq] at h
  simp only [List.mem_cons, List.mem_singleton, List.not_mem_nil, or_false, not_or] at h
  rw [fromJSI_string, if_neg h.1, if_neg h.2.1, if_neg h.2.2.1, if_neg h.2.2.2]
  exact ⟨_, rfl⟩

theorem fromJSI_invalid_of_hash_not_token_witness :
    (hashString true (c_str "touchid") ∉ tokenHashes true ∧
        ∃ message,
          JSIConverter.fromJSI true (.string "touchid") = .error (.invalid_argument message)) ∧
      (∃ message,
        JSIConverter.fromJSI true (.string "FACEID") = .error (.invalid_argument message)) ∧
      (∃ message,
        JSIConverter.fromJSI false (.string "none") = .error (.invalid_argument message)) ∧
      (∃ message,
        JSIConverter.fromJSI false (.string "") = .error (.invalid_argument message)) :=
  ⟨⟨by decide, fromJSI_invalid_of_hash_not_token true "touchid" (by decide)⟩,
   fromJSI_invalid_of_hash_not_token true "FACEID" (by decide),
   fromJSI_invalid_of_hash_not_token false "none" (by decide),
   fromJSI_invalid_of_hash_not_token false "" (by decide)⟩

/-- C3: `toJSI` maps TOUCHID to "TouchID", FACEID to "FaceID", BIOMETRICS to
"Biometrics" and NONE to "None", so each of the four outputs is one of the four
tokens, and the outputs for two different enumerators are different. -/
theorem toJSI_tokens :
    [BiometryType.TOUCHID, BiometryType.FACEID, BiometryType.BIOMETRICS, BiometryType.NONE].map
        JSIConverter.toJSI =
      [.ok (.string "TouchID"), .ok (.string "FaceID"), .ok (.string "Biometrics"),
        .ok (.string "None")] ∧
    List.Pairwise (fun v w => JSIConverter.toJSI v ≠ JSIConverter.toJSI w)
      [BiometryType.TOUCHID, BiometryType.FACEID, BiometryType.BIOMETRICS, BiometryType.NONE] := by
  refine ⟨rfl, ?_⟩
  have e0 : JSIConverter.toJSI BiometryType.TOUCHID = .ok (.string "TouchID") := rfl
  have e1 : JSIConverter.toJSI BiometryType.FACEID = .ok (.string "FaceID") := rfl
  have e2 : JSIConverter.toJSI BiometryType.BIOMETRICS = .ok (.string "Biometrics") := rfl
  have e3 : JSIConverter.toJSI BiometryType.NONE = .ok (.string "None") := rfl
  simp only [List.pairwise_cons, List.mem_cons, List.mem_singleton, List.not_mem_nil,
    forall_eq_or_imp, forall_eq, e0, e1, e2, e3]
  simp

/-- C6: `canConvert` never throws, and it returns `true` exactly when the value
is a string and `fromJSI` returns an enum value for it, `false` otherwise, so
`false` for every value that is not a string; it returns `true` for the output
of `toJSI` on each of the four enumerators. -/
theorem canConvert_iff_fromJSI_ok (charIsSigned : Bool) (x : JSValue) :
    (JSIConverter.canConvert charIsSigned x = .ok true ↔
        (x.isString = true ∧ ∃ v, JSIConverter.fromJSI charIsSigned x = .ok v)) ∧
      (JSIConverter.canConvert charIsSigned x = .ok false ↔
        ¬ (x.isString = true ∧ ∃ v, JSIConverter.fromJSI charIsSigned x = .ok v)) ∧
      [BiometryType.TOUCHID, BiometryType.FACEID, BiometryType.BIOMETRICS,
          BiometryType.NONE].map
          (fun v => JSIConverter.toJSI v >>= JSIConverter.canConvert charIsSigned) =
        [.ok true, .ok true, .ok true, .ok true] := by
  refine ⟨?_, ?_, by cases charIsSigned <;> rfl⟩
  all_goals
    cases x with
    | string s =>
      rw [canConvert_string, fromJSI_string, tokenHashes_eq]
      by_cases h1 : hashString charIsSigned (c_str s) = 0x63c7ca28095c8245
      · simp [h1, JSValue.isString]
      by_cases h2 : hashString charIsSigned (c_str s) = 0xaf4b4dadbe7ccd51
      · simp [h2, JSValue.isString]
      by_cases h3 : hashString charIsSigned (c_str s) = 0x05082003d5788802
      · simp [h3, JSValue.isString]
      by_cases h4 : hashString charIsSigned (c_str s) = 0x669b18c6d2d9c95b
      · simp [h4, JSValue.isString]
      simp [h1, h2, h3, h4, JSValue.isString]
    | _ => simp [JSIConverter.canConvert, JSValue.isString, pure, Except.pure]

/-- C7: `toJSI` throws exactly when the underlying integer of its argument is
none of 0, 1, 2, 3, the exception is a `std::invalid_argument` whose text ends
in that integer and "!", and for 0, 1, 2 and 3 it returns a value. -/
theorem toJSI_throws_iff (v : BiometryType) :
    (JSIConverter.toJSI v =
        .error (.invalid_argument
          ("Cannot convert BiometryType to JS - invalid value: " ++ toString v.underlying ++ "!"))
      ↔ v.underlying ∉ [0, 1, 2, 3]) ∧
    ((∃ e, JSIConverter.toJSI v = .error e) ↔ v.underlying ∉ [0, 1, 2, 3]) ∧
    ((∃ x, JSIConverter.toJSI v = .ok x) ↔ v.underlying ∈ [0, 1, 2, 3]) := by
  obtain ⟨n⟩ := v
  simp only [JSIConverter.toJSI, BiometryType.TOUCHID, BiometryType.FACEID,
    BiometryType.BIOMETRICS, BiometryType.NONE, BiometryType.mk.injEq, List.mem_cons,
    List.mem_singleton, List.not_mem_nil, or_false]
  by_cases h0 : n = 0
  · simp [h0, pure, Except.pure]
  by_cases h1 : n = 1
  · simp [h1, pure, Except.pure]
  by_cases h2 : n = 2
  · simp [h2, pure, Except.pure]
  by_cases h3 : n = 3
  · simp [h3, pure, Except.pure]
  simp [h0, h1, h2, h3, throw, throwThe, MonadExceptOf.throw]

/-! ## Theorems: the bridge of `SensorAvailability` -/

theorem static_cast_bool_java_to_jboolean (b : Bool) :
    static_cast_bool (java_to_jboolean b) = b := by
  cases b <;> rfl

theorem jboolean_to_java_bool_to_jboolean (b : Bool) :
    jboolean_to_java (bool_to_jboolean b) = b := by
  cases b <;> rfl

/-- C4: `fromCpp` builds the Java record whose fields are `value.available` and
`JBiometryType::fromCpp(value.biometryType)`, and `toCpp` of that record is the
C++ value again, in both fields, provided `JBiometryType::toCpp` undoes
`JBiometryType::fromCpp` on the `biometryType` of the value. -/
theorem toCpp_fromCpp_roundtrip {J : Type} (JBiometryType_fromCpp : BiometryType → J)
    (JBiometryType_toCpp : J → BiometryType) (v : SensorAvailability) :
    JSensorAvailability.fromCpp JBiometryType_fromCpp v =
        { available := v.available, biometryType := JBiometryType_fromCpp v.biometryType } ∧
      (JBiometryType_toCpp (JBiometryType_fromCpp v.biometryType) = v.biometryType →
        JSensorAvailability.toCpp JBiometryType_toCpp
          (JSensorAvailability.fromCpp JBiometryType_fromCpp v) = v) := by
  obtain ⟨a, t⟩ := v
  refine ⟨?_, fun hJ => ?_⟩
  · simp only [JSensorAvailability.fromCpp, JSensorAvailability.newInstance,
      jboolean_to_java_bool_to_jboolean]
  · simp only [JSensorAvailability.fromCpp, JSensorAvailability.newInstance,
      JSensorAvailability.toCpp, jboolean_to_java_bool_to_jboolean,
      static_cast_bool_java_to_jboolean] at hJ ⊢
    rw [hJ]

theorem toCpp_fromCpp_roundtrip_witness :
    JavaEnum.toCpp (JavaEnum.fromCpp BiometryType.FACEID) = BiometryType.FACEID ∧
      JavaEnum.toCpp (JavaEnum.fromCpp ⟨7⟩) ≠ ⟨7⟩ ∧
      JSensorAvailability.fromCpp JavaEnum.fromCpp ⟨false, BiometryType.FACEID⟩ =
        { available := false, biometryType := JavaEnum.FACEID } ∧
      JSensorAvailability.toCpp JavaEnum.toCpp
        (JSensorAvailability.fromCpp JavaEnum.fromCpp ⟨false, BiometryType.FACEID⟩) =
        ⟨false, BiometryType.FACEID⟩ :=
  have h := toCpp_fromCpp_roundtrip JavaEnum.fromCpp JavaEnum.toCpp ⟨false, BiometryType.FACEID⟩
  ⟨rfl, by decide, h.1, h.2 rfl⟩

/-- C5: marshalling never changes one field on account of the other. `toCpp` of
a record with `available == false` and any `biometryType` returns
`available == false` with the converted `biometryType`; in the results of
`toCpp` and of `fromCpp`, `available` is the `available` of the input and
`biometryType` is the conversion of the `biometryType` of the input, so
changing one field of the input leaves the other field of the result as it
was. -/
theorem marshalling_fields_independent {J : Type} (JBiometryType_fromCpp : BiometryType → J)
    (JBiometryType_toCpp : J → BiometryType) :
    (∀ j : J, JSensorAvailability.toCpp JBiometryType_toCpp ⟨false, j⟩ =
        ⟨false, JBiometryType_toCpp j⟩) ∧
      (∀ (a : Bool) (j : J), JSensorAvailability.toCpp JBiometryType_toCpp ⟨a, j⟩ =
        ⟨a, JBiometryType_toCpp j⟩) ∧
      (∀ (a : Bool) (t : BiometryType), JSensorAvailability.fromCpp JBiometryType_fromCpp ⟨a, t⟩ =
        ⟨a, JBiometryType_fromCpp t⟩) ∧
      (∀ (a a' : Bool) (j j' : J),
        (JSensorAvailability.toCpp JBiometryType_toCpp ⟨a, j⟩).biometryType =
            (JSensorAvailability.toCpp JBiometryType_toCpp ⟨a', j⟩).biometryType ∧
          (JSensorAvailability.toCpp JBiometryType_toCpp ⟨a, j⟩).available =
            (JSensorAvailability.toCpp JBiometryType_toCpp ⟨a, j'⟩).available) ∧
      (∀ (a a' : Bool) (t t' : BiometryType),
        (JSensorAvailability.fromCpp JBiometryType_fromCpp ⟨a, t⟩).biometryType =
            (JSensorAvailability.fromCpp JBiometryType_fromCpp ⟨a', t⟩).biometryType ∧
          (JSensorAvailability.fromCpp JBiometryType_fromCpp ⟨a, t⟩).available =
            (JSensorAvailability.fromCpp JBiometryType_fromCpp ⟨a, t'⟩).available) := by
  have hto : ∀ (a : Bool) (j : J), JSensorAvailability.toCpp JBiometryType_toCpp ⟨a, j⟩ =
      ⟨a, JBiometryType_toCpp j⟩ := by
    intro a j
    simp only [JSensorAvailability.toCpp, static_cast_bool_java_to_jboolean]
  have hfrom : ∀ (a : Bool) (t : BiometryType),
      JSensorAvailability.fromCpp JBiometryType_fromCpp ⟨a, t⟩ =
        ⟨a, JBiometryType_fromCpp t⟩ := by
    intro a t
    simp only [JSensorAvailability.fromCpp, JSensorAvailability.newInstance,
      jboolean_to_java_bool_to_jboolean]
  refine ⟨fun j => hto false j, hto, hfrom, ?_, ?_⟩
  · intro a a' j j'
    simp only [hto, and_self]
  · intro a a' t t'
    simp only [hfrom, and_self]

/-! ## Theorems: registration of `BiolinkCore` -/

theorem find_initialize_vm (p : Process) (name : String) :
    (initialize_vm p).2.registry.find name =
      if name = "BiolinkCore" then some BiolinkCore_constructor else p.registry.find name := by
  simp only [initialize_vm, jni_initialize_vm, JHybridBiolinkCoreSpec.registerNatives,
    HybridObjectRegistry.registerHybridObjectConstructor, HybridObjectRegistry.find,
    List.find?_cons]
  by_cases h : name = "BiolinkCore"
  · subst h
    simp
  · have h' : ("BiolinkCore" == name) = false := by
      simpa using fun e => h e.symm
    simp [h', h]

theorem BiolinkCore_constructor_fresh (jvm : JVM) :
    BiolinkCore_constructor ⟨jvm, none⟩ =
      (⟨jvm.objects.length⟩,
        ⟨⟨jvm.objects ++ ["com/margelo/nitro/biolink/native/HybridBiolinkCore"],
            jvm.classLookups ++ ["com/margelo/nitro/biolink/native/HybridBiolinkCore"]⟩,
          some ⟨"com/margelo/nitro/biolink/native/HybridBiolinkCore"⟩⟩) := rfl

theorem BiolinkCore_constructor_cached (jvm : JVM) :
    BiolinkCore_constructor ⟨jvm, some ⟨"com/margelo/nitro/biolink/native/HybridBiolinkCore"⟩⟩ =
      (⟨jvm.objects.length⟩,
        ⟨⟨jvm.objects ++ ["com/margelo/nitro/biolink/native/HybridBiolinkCore"], jvm.classLookups⟩,
          some ⟨"com/margelo/nitro/biolink/native/HybridBiolinkCore"⟩⟩) := rfl

/-- C8: `initialize` adds exactly one entry to the constructor registry, under
the name "BiolinkCore", so that afterwards that name finds the registered
constructor and every other name finds what it found before. Each call of the
registered constructor creates one new Java object of the class
com/margelo/nitro/biolink/native/HybridBiolinkCore and keeps the objects that
existed, so the object of a second call is not the object of the first; the
class is looked up by the first call only, which builds the `static`, and the
`static` stays built. -/
theorem initialize_registers_BiolinkCore (p : Process) (s : ConstructorState)
    (hs : s.staticValid) :
    (initialize_vm p).2.registry.entries =
        ("BiolinkCore", BiolinkCore_constructor) :: p.registry.entries ∧
      (∀ name, (initialize_vm p).2.registry.find name =
        if name = "BiolinkCore" then some BiolinkCore_constructor else p.registry.find name) ∧
      (BiolinkCore_constructor s).1.javaObject = s.jvm.objects.length ∧
      (BiolinkCore_constructor s).2.jvm.objects =
        s.jvm.objects ++ ["com/margelo/nitro/biolink/native/HybridBiolinkCore"] ∧
      (BiolinkCore_constructor s).2.jvm.classLookups =
        s.jvm.classLookups ++
          (if s.object.isSome then [] else
            ["com/margelo/nitro/biolink/native/HybridBiolinkCore"]) ∧
      (BiolinkCore_constructor s).2.staticValid ∧
      (BiolinkCore_constructor s).2.object.isSome = true ∧
      (BiolinkCore_constructor (BiolinkCore_constructor s).2).1.javaObject ≠
        (BiolinkCore_constructor s).1.javaObject ∧
      (BiolinkCore_constructor (BiolinkCore_constructor s).2).2.jvm.classLookups =
        (BiolinkCore_constructor s).2.jvm.classLookups := by
  refine ⟨rfl, find_initialize_vm p, ?_⟩
  obtain ⟨jvm, object⟩ := s
  rcases hs with h | h <;> simp only at h <;> subst h
  · simp only [BiolinkCore_constructor_fresh, BiolinkCore_constructor_cached]
    simp [ConstructorState.staticValid]
  · simp only [BiolinkCore_constructor_cached]
    simp [ConstructorState.staticValid]

theorem initialize_registers_BiolinkCore_witness :
    (ConstructorState.mk ⟨["java/lang/Object"], []⟩ none).staticValid ∧
      (initialize_vm ⟨[], ⟨[]⟩⟩).2.registry.find "BiolinkCore" = some BiolinkCore_constructor ∧
      (BiolinkCore_constructor ⟨⟨["java/lang/Object"], []⟩, none⟩).1.javaObject = 1 ∧
      (BiolinkCore_constructor ⟨⟨["java/lang/Object"], []⟩, none⟩).2.jvm.objects =
        ["java/lang/Object", "com/margelo/nitro/biolink/native/HybridBiolinkCore"] :=
  have h := initialize_registers_BiolinkCore ⟨[], ⟨[]⟩⟩ ⟨⟨["java/lang/Object"], []⟩, none⟩
    (Or.inl rfl)
  ⟨Or.inl rfl, h.2.1 "BiolinkCore", h.2.2.1, h.2.2.2.1⟩

end Biolink
